import Mathlib

/-!
Verification of the chart-building logic of the Allocine statistics
home page (src/home_page.py). The pandas tables are embedded as Lean
lists of records, pandas groupby/size as an explicit group-and-count
function, and the Python string operations (concatenation, slicing,
membership, truthiness) as the corresponding Lean string functions.
-/

/-- One row of the watched-films table (df_films). Ratings range over 0 to 5
and may be absent, which we embed as Option Rat. The genres and countries
columns hold the encoded membership strings searched by str.contains. -/
structure Film where
  id : Nat
  title : String
  year : Nat
  duration : Nat
  pressRating : Option Rat
  spectatorRating : Option Rat
  genres : String
  countries : String
  poster : String

/-- One row of an award-list CSV read by create_progression:
an identifier and a title. -/
structure AwardRow where
  id : Nat
  title : String
  deriving DecidableEq

/-- One row of csv/countries.csv as read by create_home: french name,
english name, and the precomputed watched count. -/
structure CountryRow where
  country : String
  country_en : String
  number : Nat
  deriving DecidableEq

/-- Modelled from the spec: the Person class (person.py, outside src/) is an
actor or director record built from an identifier; only its identity by
identifier matters for the create_persons caching claim, so it is embedded
as a record holding that identifier. -/
structure Person where
  id : Nat
  deriving DecidableEq

/-- Char-list version of: the first list is an initial segment of the second. -/
def charsPrefixOf : List Char → List Char → Bool
  | [], _ => true
  | _ :: _, [] => false
  | a :: as, b :: bs => a == b && charsPrefixOf as bs

/-- Char-list version of substring occurrence, scanning every position. -/
def charsContain (needle : List Char) : List Char → Bool
  | [] => needle.isEmpty
  | b :: bs => charsPrefixOf needle (b :: bs) || charsContain needle bs

/-- Embedding of the Python substring test, needle in hay. -/
def pyIn (needle hay : String) : Bool := charsContain needle.data hay.data

/-- Embedding of the Python expression a or b on strings: a string is falsy
exactly when it is empty. -/
def pyStrOr (a b : String) : String := if a = "" then b else a

/-- Embedding of pandas df.groupby(col).size().reset_index(): the key column
holds optional values, a missing value (NaN) being none; following the
pandas default dropna=True, rows whose key is missing are dropped first,
then the distinct present keys are listed in ascending order, each paired
with its number of occurrences. Used by create_hist_numbers (line 40) and
create_scatter_ratings (lines 324 to 328). -/
def groupbySize {α : Type} [DecidableEq α] [LinearOrder α] (l : List (Option α)) :
    List (α × Nat) :=
  (List.insertionSort (fun a b => a ≤ b) (l.filterMap id).dedup).map
    fun k => (k, (l.filterMap id).count k)

/-- The df_count table of create_hist_numbers (line 40): group the films by
the selected numeric column and count each group; a film whose column value
is missing is dropped by the groupby. -/
def create_hist_numbers_groups {α : Type} [DecidableEq α] [LinearOrder α]
    (rows : List Film) (value : Film → Option α) : List (α × Nat) :=
  groupbySize (rows.map value)

/-- The df_count table of create_scatter_ratings (lines 324 to 328): group
the films by the pair of rating columns, here an arbitrary key projection
into a linearly ordered type with none for a row missing a key component,
and count each group. -/
def create_scatter_groups {κ : Type} [DecidableEq κ] [LinearOrder κ]
    (rows : List Film) (key : Film → Option κ) : List (κ × Nat) :=
  groupbySize (rows.map key)

/-- The example titles listed in the infotip of create_hist_numbers
(line 45): titles of the films whose grouping column equals the group
value, cut to the first five. -/
def hist_hover_titles {α : Type} [DecidableEq α]
    (rows : List Film) (value : Film → α) (v : α) : List String :=
  ((rows.filter (fun f => value f == v)).map Film.title).take 5

/-- The example titles listed in the infotip of create_hist_categories
(lines 114 to 116): titles of the films whose membership column contains
the category key, cut to the first five. The pandas str.contains call is
embedded as a plain substring test. -/
def cat_hover_titles (rows : List Film) (plural : Film → String) (idval : String) :
    List String :=
  ((rows.filter (fun f => pyIn idval (plural f))).map Film.title).take 5

/-- The example titles listed in a slice of the progression pies
(watched[:5] at lines 221, 226, 277, 282). -/
def progression_hover_titles (watched : List String) : List String :=
  watched.take 5

/-- The plural heuristic of create_hist_categories (lines 107 to 109):
append s, unless the word ends in y, in which case the final y is replaced
with ies. -/
def pluralize (categories : String) : String :=
  if categories.data.getLast? ≠ some 'y' then categories ++ "s"
  else String.mk categories.data.dropLast ++ "ies"

/-- The watched rows of create_progression (line 214): award rows whose
identifier occurs among the film identifiers. -/
def create_progression_watched_rows (award : List AwardRow) (filmIds : List Nat) :
    List AwardRow :=
  award.filter (fun r => filmIds.contains r.id)

/-- The not-watched rows of create_progression (lines 215 to 217): award rows
whose identifier does not occur among the film identifiers. -/
def create_progression_not_watched_rows (award : List AwardRow) (filmIds : List Nat) :
    List AwardRow :=
  award.filter (fun r => !(filmIds.contains r.id))

/-- The watched title list of create_progression (line 214). -/
def create_progression_watched (award : List AwardRow) (filmIds : List Nat) : List String :=
  (create_progression_watched_rows award filmIds).map AwardRow.title

/-- The not-watched title list of create_progression (lines 215 to 217). -/
def create_progression_not_watched (award : List AwardRow) (filmIds : List Nat) :
    List String :=
  (create_progression_not_watched_rows award filmIds).map AwardRow.title

/-- The watched_str tooltip of create_progression (lines 220 to 223):
a Number prefix, then up to five titles joined by br tags, with a Python
or fallback to None. -/
def create_progression_watched_str (watched : List String) : String :=
  pyStrOr ("Number: " ++ toString watched.length ++ "<br>" ++
    String.intercalate "<br>" (watched.take 5)) "None"

/-- The not_watched_str tooltip of create_progression (lines 224 to 228). -/
def create_progression_not_watched_str (l : List String) : String :=
  pyStrOr ("Number: " ++ toString l.length ++ "<br>" ++
    String.intercalate "<br>" (l.take 5)) "None"

/-- The watched_str tooltip of create_progression_countries
(lines 276 to 279). -/
def create_progression_countries_watched_str (watched : List String) : String :=
  pyStrOr ("Number: " ++ toString watched.length ++ "<br>" ++
    String.intercalate "<br>" (watched.take 5)) "None"

/-- The not_watched_str tooltip of create_progression_countries
(lines 280 to 284). -/
def create_progression_countries_not_watched_str (l : List String) : String :=
  pyStrOr ("Number: " ++ toString l.length ++ "<br>" ++
    String.intercalate "<br>" (l.take 5)) "None"

/-- The height argument of the bar chart of create_hist_numbers (line 52):
500 when the column name does not contain rating, 400 when it does. -/
def create_hist_numbers_height (value : String) : Nat :=
  if !(pyIn "rating" value) then 500 else 400

/-- The x-axis range set by create_hist_numbers (lines 70 to 71): fixed to
0 to 5 exactly when the column name contains rating, untouched otherwise. -/
def create_hist_numbers_xrange (value : String) : Option (Nat × Nat) :=
  if pyIn "rating" value then some (0, 5) else none

/-- The session-state key of create_persons (line 384) for one identifier. -/
def person_key (id : Nat) : String := "person_" ++ toString id

/-- Embedding of the create_persons loop over the displayed people
(lines 380 to 388), restricted to the person cache slice of the session
state: for each identifier in order, when its key is already present the
cache is reused unchanged, otherwise a new Person is constructed and
stored. The second component records the identifiers for which a Person
object was constructed. -/
def create_persons_run (cache : List (String × Person)) :
    List Nat → List (String × Person) × List Nat
  | [] => (cache, [])
  | id :: rest =>
    if (cache.lookup (person_key id)).isSome then
      create_persons_run cache rest
    else
      let q := create_persons_run ((person_key id, Person.mk id) :: cache) rest
      (q.1, id :: q.2)

/-- The descending order on country rows used by the sort_values call of
create_home (lines 477 to 479). -/
def countryDesc (a b : CountryRow) : Prop := b.number ≤ a.number

instance : DecidableRel countryDesc := fun a b => Nat.decLe b.number a.number

/-- The country table of create_home after sort_values on the count,
descending (lines 477 to 479). -/
def sorted_countries (rows : List CountryRow) : List CountryRow :=
  List.insertionSort countryDesc rows

/-- The rows of the country table whose count is zero, selected by
create_home at lines 480 to 482. -/
def zero_country_rows (rows : List CountryRow) : List CountryRow :=
  (sorted_countries rows).filter (fun r => r.number == 0)

/-- The countries_not_watched list of create_home (lines 480 to 482): the
french names of the zero-count rows. -/
def countries_not_watched (rows : List CountryRow) : List String :=
  (zero_country_rows rows).map CountryRow.country

/-- The df_countries table kept by create_home (line 483): the rows whose
count is non-zero. -/
def df_countries_filtered (rows : List CountryRow) : List CountryRow :=
  (sorted_countries rows).filter (fun r => r.number != 0)

/-- A film with duration 90, for the end-to-end duration example. -/
def film_a : Film := ⟨1, "Film A", 2000, 90, none, none, "", "", ""⟩

/-- A film with duration 120, for the end-to-end duration example. -/
def film_b : Film := ⟨2, "Film B", 2001, 120, none, none, "", "", ""⟩

/-- A second film with duration 90, for the end-to-end duration example. -/
def film_c : Film := ⟨3, "Film C", 2002, 90, none, none, "", "", ""⟩

/-- A film carrying a press rating, for the dropped-NaN-group example. -/
def film_d : Film := ⟨4, "Film D", 2003, 100, some 4, some 3, "", "", ""⟩

/-- A film without a press rating, as exercised by the chart of line 551,
for the dropped-NaN-group example. -/
def film_e : Film := ⟨5, "Film E", 2004, 110, none, some 2, "", "", ""⟩

theorem string_data_mk (xs : List Char) : (String.mk xs).data = xs := rfl

theorem groupbySize_sum_counts {α : Type} [DecidableEq α] [LinearOrder α]
    (l : List (Option α)) :
    ((groupbySize l).map Prod.snd).sum = (l.filterMap id).length := by
  have hperm : (List.insertionSort (fun a b => a ≤ b) (l.filterMap id).dedup).Perm
      (l.filterMap id).dedup :=
    List.perm_insertionSort _ _
  have h1 : ((groupbySize l).map Prod.snd) =
      (List.insertionSort (fun a b => a ≤ b) (l.filterMap id).dedup).map
        (fun k => (l.filterMap id).count k) := by
    simp [groupbySize, List.map_map, Function.comp]
  rw [h1, (hperm.map (fun k => (l.filterMap id).count k)).sum_eq]
  exact List.sum_map_count_dedup_eq_length (l.filterMap id)

theorem run_preserves_lookup (ids : List Nat) (cache : List (String × Person))
    (k : String) (v : Person) (h : cache.lookup k = some v) :
    (create_persons_run cache ids).1.lookup k = some v := by
  induction ids generalizing cache with
  | nil => simpa [create_persons_run] using h
  | cons id rest ih =>
    by_cases hc : (cache.lookup (person_key id)).isSome
    · simpa [create_persons_run, hc] using ih cache h
    · simp only [create_persons_run, hc, if_false]
      apply ih
      by_cases hk : k = person_key id
      · exfalso
        rw [hk] at h
        simp [h] at hc
      · have hb : (k == person_key id) = false := beq_eq_false_iff_ne.mpr hk
        simpa [List.lookup, hb] using h

theorem run_constructed_absent (ids : List Nat) (cache : List (String × Person)) (id : Nat)
    (h : id ∈ (create_persons_run cache ids).2) :
    cache.lookup (person_key id) = none := by
  induction ids generalizing cache with
  | nil => simp [create_persons_run] at h
  | cons id2 rest ih =>
    by_cases hc : (cache.lookup (person_key id2)).isSome
    · rw [create_persons_run, if_pos hc] at h
      exact ih cache h
    · rw [create_persons_run, if_neg hc] at h
      rcases List.mem_cons.mp h with heq | hmem
      · subst heq
        exact Option.not_isSome_iff_eq_none.mp hc
      · have h2 := ih _ hmem
        by_cases hk : person_key id = person_key id2
        · exfalso
          have hb : (person_key id == person_key id2) = true := beq_iff_eq.mpr hk
          simp [List.lookup, hb] at h2
        · have hb : (person_key id == person_key id2) = false := beq_eq_false_iff_ne.mpr hk
          simpa [List.lookup, hb] using h2

theorem run_count_le_one (ids : List Nat) (cache : List (String × Person)) (id : Nat) :
    ((create_persons_run cache ids).2.count id) ≤ 1 := by
  induction ids generalizing cache with
  | nil => simp [create_persons_run]
  | cons id2 rest ih =>
    by_cases hc : (cache.lookup (person_key id2)).isSome
    · rw [create_persons_run, if_pos hc]
      exact ih cache
    · rw [create_persons_run, if_neg hc]
      by_cases hid : id = id2
      · subst hid
        have hz : id ∉ (create_persons_run ((person_key id, Person.mk id) :: cache) rest).2 := by
          intro hmem
          have h2 := run_constructed_absent rest _ id hmem
          simp [List.lookup] at h2
        simp [List.count_cons, List.count_eq_zero.mpr hz]
      · simp only [List.count_cons]
        have hb : (id2 == id) = false := by
          simp [Ne.symm hid]
        simp [hb]
        exact ih _

/-- C1: evaluation of the group-and-count aggregation at a films table with
an absent press rating, a case the program reaches at lines 547 and 557 and
that line 551 shows to occur. The pandas groupby drops the missing-key row,
so the per-group counts sum to 1 while the table has 2 rows: the claimed
count preservation fails on such tables. In general the counts sum to the
number of rows whose key is present, per groupbySize_sum_counts. -/
theorem create_hist_groups_dropna_eval :
    ((create_hist_numbers_groups [film_d, film_e] (fun f => f.pressRating)).map
      Prod.snd).sum = 1 ∧
    ([film_d, film_e] : List Film).length = 2 ∧
    (([film_d, film_e] : List Film).map (fun f => f.pressRating)).filterMap id =
      [(4 : Rat)] := by
  decide

/-- C2: evaluation of the progression tooltip builders on an empty list. The
string built for an empty watched or not-watched list is the non-empty
string Number: 0 followed by a br tag, never the literal None: the Python
or fallback to None is dead code, because the Number prefix makes the left
operand always truthy. -/
theorem create_progression_empty_hover_eval :
    create_progression_watched_str [] = "Number: 0<br>" ∧
    create_progression_watched_str [] ≠ "None" ∧
    create_progression_not_watched_str [] = "Number: 0<br>" ∧
    create_progression_not_watched_str [] ≠ "None" ∧
    create_progression_countries_watched_str [] = "Number: 0<br>" ∧
    create_progression_countries_watched_str [] ≠ "None" ∧
    create_progression_countries_not_watched_str [] = "Number: 0<br>" ∧
    create_progression_countries_not_watched_str [] ≠ "None" := by
  decide

/-- C3, counterexample: the plural heuristic applied to the word country does
not yield countrys, contradicting the claim as stated. -/
theorem pluralize_country_ne_countrys : pluralize "country" ≠ "countrys" := by
  decide

/-- C3, amended: the plural heuristic applied to the word country yields
countries, because the branch replacing a final y with ies fires. -/
theorem pluralize_country_eq_countries : pluralize "country" = "countries" := by
  decide

/-- C4: for every award list and every film identifier list, the
watched/not-watched partition of create_progression is a strict disjoint
cover: the two sizes sum to the number of award rows, every award row lands
in exactly one of the two row sets according to identifier membership, and
the two title lists also have sizes summing to the number of award rows. -/
theorem create_progression_partition (award : List AwardRow) (filmIds : List Nat) :
    ((create_progression_watched_rows award filmIds).length +
      (create_progression_not_watched_rows award filmIds).length = award.length) ∧
    (∀ r ∈ award,
      (filmIds.contains r.id = true ∧ r ∈ create_progression_watched_rows award filmIds ∧
        r ∉ create_progression_not_watched_rows award filmIds) ∨
      (filmIds.contains r.id = false ∧ r ∈ create_progression_not_watched_rows award filmIds ∧
        r ∉ create_progression_watched_rows award filmIds)) ∧
    ((create_progression_watched award filmIds).length +
      (create_progression_not_watched award filmIds).length = award.length) := by
  have hlen : (create_progression_watched_rows award filmIds).length +
      (create_progression_not_watched_rows award filmIds).length = award.length := by
    have h := (List.filter_append_perm (fun r => filmIds.contains r.id) award).length_eq
    simpa [create_progression_watched_rows, create_progression_not_watched_rows,
      List.length_append] using h
  refine ⟨hlen, ?_, ?_⟩
  · intro r hr
    by_cases hm : filmIds.contains r.id
    · left
      have hmm : r.id ∈ filmIds := by simpa using hm
      refine ⟨hm, ?_, ?_⟩
      · simp [create_progression_watched_rows, List.mem_filter, hr, hmm]
      · simp [create_progression_not_watched_rows, List.mem_filter, hmm]
    · right
      have hm2 : filmIds.contains r.id = false := by simpa using hm
      have hmm : r.id ∉ filmIds := by simpa using hm
      refine ⟨hm2, ?_, ?_⟩
      · simp [create_progression_not_watched_rows, List.mem_filter, hr, hmm]
      · simp [create_progression_watched_rows, List.mem_filter, hmm]
  · simpa [create_progression_watched, create_progression_not_watched,
      List.length_map] using hlen

/-- C4 witness: the partition sizes on a concrete two-row award list with one
watched identifier. -/
theorem create_progression_partition_witness :
    (create_progression_watched_rows [⟨1, "A"⟩, ⟨2, "B"⟩] [1]).length +
      (create_progression_not_watched_rows [⟨1, "A"⟩, ⟨2, "B"⟩] [1]).length = 2 :=
  (create_progression_partition [⟨1, "A"⟩, ⟨2, "B"⟩] [1]).1

/-- C5: in every chart builder the hover annotation shows at most five
example titles, whatever the group size: the title lists built by the
numeric histogram, the categorical histogram and the progression pies all
have length at most five. -/
theorem hover_titles_at_most_five {α : Type} [DecidableEq α]
    (rows : List Film) (value : Film → α) (v : α)
    (plural : Film → String) (idval : String) (watched : List String) :
    (hist_hover_titles rows value v).length ≤ 5 ∧
    (cat_hover_titles rows plural idval).length ≤ 5 ∧
    (progression_hover_titles watched).length ≤ 5 := by
  refine ⟨?_, ?_, ?_⟩ <;>
    simp [hist_hover_titles, cat_hover_titles, progression_hover_titles]

/-- C6: whenever the numeric histogram column name contains rating, the
produced figure has height 400 instead of the default 500 and its x-axis
range is fixed to 0 to 5. -/
theorem rating_hist_formatting (value : String) (h : pyIn "rating" value = true) :
    create_hist_numbers_height value = 400 ∧
    create_hist_numbers_xrange value = some (0, 5) := by
  constructor
  · simp [create_hist_numbers_height, h]
  · simp [create_hist_numbers_xrange, h]

/-- C6 witness: the rating special case instantiated at the concrete column
name press rating. -/
theorem rating_hist_formatting_witness :
    pyIn "rating" "press rating" = true ∧
    create_hist_numbers_height "press rating" = 400 ∧
    create_hist_numbers_xrange "press rating" = some (0, 5) :=
  ⟨by decide, (rating_hist_formatting "press rating" (by decide)).1,
    (rating_hist_formatting "press rating" (by decide)).2⟩

/-- C7: for every non-empty singular word, written as a char list with an
explicit last char, the plural heuristic appends s, except that a final y
is replaced with ies; and the plural of genre is genres. -/
theorem pluralize_suffix_rule (cs : List Char) (c : Char) :
    pluralize (String.mk (cs ++ [c])) =
      (if c = 'y' then String.mk cs ++ "ies" else String.mk (cs ++ [c]) ++ "s") ∧
    pluralize "genre" = "genres" := by
  refine ⟨?_, by decide⟩
  unfold pluralize
  by_cases h : c = 'y'
  · subst h
    simp [string_data_mk, List.getLast?_concat, List.dropLast_concat]
  · simp [string_data_mk, List.getLast?_concat, List.dropLast_concat, h]

/-- C8: for every starting session cache and every sequence of rendered
person identifiers, the create_persons renderer never overwrites an
existing cache entry, constructs at most one Person per identifier, and
constructs a Person for an identifier only when its key was absent from
the starting cache. -/
theorem create_persons_cache_spec (cache : List (String × Person)) (ids : List Nat)
    (k : String) (v : Person) (id : Nat) :
    (cache.lookup k = some v → (create_persons_run cache ids).1.lookup k = some v) ∧
    ((create_persons_run cache ids).2.count id ≤ 1) ∧
    (id ∈ (create_persons_run cache ids).2 → cache.lookup (person_key id) = none) :=
  ⟨run_preserves_lookup ids cache k v, run_count_le_one ids cache id,
    run_constructed_absent ids cache id⟩

/-- C8 witness: a concrete render over identifiers 1, 2, 2 starting from a
cache already holding identifier 1: the cached entry survives and
identifier 2 is constructed at most once. -/
theorem create_persons_cache_spec_witness :
    ((create_persons_run [(person_key 1, Person.mk 1)] [1, 2, 2]).1.lookup (person_key 1) =
      some (Person.mk 1)) ∧
    ((create_persons_run [(person_key 1, Person.mk 1)] [1, 2, 2]).2.count 2 ≤ 1) :=
  ⟨(create_persons_cache_spec [(person_key 1, Person.mk 1)] [1, 2, 2]
      (person_key 1) (Person.mk 1) 2).1 (by decide),
    (create_persons_cache_spec [(person_key 1, Person.mk 1)] [1, 2, 2]
      (person_key 1) (Person.mk 1) 2).2.1⟩

/-- C9: on a films table whose duration column holds 90, 120, 90, the
group-and-count step of the duration histogram yields exactly the two
groups 90 with count 2 and 120 with count 1. The duration column is total,
so every key is present and no row is dropped by the groupby. -/
theorem create_hist_numbers_duration_example :
    create_hist_numbers_groups [film_a, film_b, film_c] (fun f => some f.duration) =
      [(90, 2), (120, 1)] := by
  decide

/-- C10: when the home page loads the country table, every row is routed to
exactly one of the two sets by its count: the sizes of the zero-count set
and of the kept table sum to the row count, the not-watched list is exactly
the names of the zero-count rows, and each row belongs to the one set its
count selects and not to the other. -/
theorem create_home_country_partition (rows : List CountryRow) :
    ((zero_country_rows rows).length + (df_countries_filtered rows).length = rows.length) ∧
    (countries_not_watched rows = (zero_country_rows rows).map CountryRow.country) ∧
    (∀ r ∈ rows,
      (r.number = 0 → r ∈ zero_country_rows rows ∧ r ∉ df_countries_filtered rows) ∧
      (r.number ≠ 0 → r ∈ df_countries_filtered rows ∧ r ∉ zero_country_rows rows)) := by
  refine ⟨?_, rfl, ?_⟩
  · have h := (List.filter_append_perm (fun r => r.number == 0) (sorted_countries rows)).length_eq
    have h2 : (sorted_countries rows).length = rows.length :=
      (List.perm_insertionSort countryDesc rows).length_eq
    have h3 : df_countries_filtered rows =
        (sorted_countries rows).filter (fun r => !(r.number == 0)) := rfl
    simp only [zero_country_rows, h3, ← h2]
    simpa [List.length_append] using h
  · intro r hr
    have hs : r ∈ sorted_countries rows :=
      (List.perm_insertionSort countryDesc rows).mem_iff.mpr hr
    constructor
    · intro h0
      constructor
      · simp [zero_country_rows, List.mem_filter, hs, h0]
      · simp [df_countries_filtered, List.mem_filter, h0]
    · intro h0
      constructor
      · simp [df_countries_filtered, List.mem_filter, hs, h0]
      · simp [zero_country_rows, List.mem_filter, h0]

/-- C10 witness: the size equation on a concrete country table with one
watched and one unwatched country. -/
theorem create_home_country_partition_witness :
    (zero_country_rows [⟨"France", "France", 2⟩, ⟨"Chili", "Chile", 0⟩]).length +
      (df_countries_filtered [⟨"France", "France", 2⟩, ⟨"Chili", "Chile", 0⟩]).length = 2 :=
  (create_home_country_partition [⟨"France", "France", 2⟩, ⟨"Chili", "Chile", 0⟩]).1
